import Mathlib

/-!
Shallow embedding of the Blotato n8n node (Blotato-Inc/n8n-nodes-blotato).

Main sources embedded here:
- src/nodes/Blotato/Blotato.node.ts  (class Blotato, method execute)
- src/nodes/Blotato/SearchFunctions.ts  (getAccounts, getSubaccounts, first revision)
- src/unnamed/part_003  (later revision of the node enforcing a binary upload size cap)

Modelling conventions:
- One execution item is modelled by a record of the parameter values that
  this.getNodeParameter can return for it; resourceLocator parameters are
  modelled by their .value string, exactly as the code reads them.
- A thrown NodeOperationError is modelled as ExecResult.nodeError with the
  error message; ExecResult.ok holds the HTTP request that would be issued
  (method, relative path, JSON body).  nodeError means no request is issued
  for the item.
- JavaScript string primitives used by the code (split(','), trim,
  includes, the /[+-]\d\x7b2\x7d:\d\x7b2\x7d$/ regex test, charAt(0).toUpperCase(),
  Buffer.toString('base64')) are embedded as executable functions on
  List Char / String below.
- JavaScript truthiness tests on optional string options are embedded by
  jsTruthyOpt / jsTruthyStr (absent or empty string is falsy).
-/

/-- Whitespace characters removed by JavaScript String.prototype.trim
(ASCII whitespace plus NBSP and BOM, the cases relevant to this node). -/
def isJsWs (c : Char) : Bool :=
  c = ' ' || c = '\t' || c = '\n' || c = '\r' || c.toNat = 11 || c.toNat = 12 ||
    c.toNat = 160 || c.toNat = 65279

/-- Drop leading and trailing JS whitespace from a character list. -/
def trimChars (l : List Char) : List Char :=
  ((l.dropWhile isJsWs).reverse.dropWhile isJsWs).reverse

/-- JavaScript String.prototype.trim. -/
def jsTrim (s : String) : String := String.mk (trimChars s.data)

/-- JavaScript String.prototype.split with a one-character separator:
"".split(',') is [""], and separators delimit possibly empty pieces. -/
def splitOnChar (sep : Char) : List Char → List (List Char)
  | [] => [[]]
  | c :: rest =>
    let r := splitOnChar sep rest
    if c = sep then [] :: r
    else
      match r with
      | [] => [[c]]
      | h :: t => (c :: h) :: t

/-- s.split(',') from the node code. -/
def jsSplitComma (s : String) : List String := (splitOnChar ',' s.data).map String.mk

/-- mediaUrls parsing of the node: s.split(',').map(url => url.trim()).filter(Boolean). -/
def splitUrls (s : String) : List String :=
  ((jsSplitComma s).map jsTrim).filter (fun u => u ≠ "")

/-- JavaScript s.includes(c) for a single-character needle. -/
def jsContainsChar (s : String) (c : Char) : Bool := s.data.contains c

/-- The test scheduledTime.match(/[+-]\d\x7b2\x7d:\d\x7b2\x7d$/) from the node:
the string ends in a sign, two digits, a colon and two digits. -/
def endsWithOffset (s : String) : Bool :=
  match s.data.reverse with
  | m2 :: m1 :: c :: h2 :: h1 :: sgn :: _ =>
    (sgn = '+' || sgn = '-') && h1.isDigit && h2.isDigit && c = ':' &&
      m1.isDigit && m2.isDigit
  | _ => false

/-- platform.charAt(0).toUpperCase() + platform.slice(1) from the node. -/
def jsCapitalize (s : String) : String :=
  match s.data with
  | [] => ""
  | c :: rest => String.mk (c.toUpper :: rest)

/-- JavaScript truthiness of an optional string option: undefined and '' are falsy. -/
def jsTruthyOpt (o : Option String) : Option String :=
  match o with
  | none => none
  | some s => if s = "" then none else some s

/-- JavaScript truthiness of a string parameter with default '': '' is falsy. -/
def jsTruthyStr (s : String) : Option String :=
  if s = "" then none else some s

/-- Character of the standard base64 alphabet at a 6-bit index. -/
def b64char (n : Nat) : Char :=
  "ABCDEFGHIJKLMNOPQRSTUVWXYZabcdefghijklmnopqrstuvwxyz0123456789+/".data.getD n 'A'

/-- Buffer.prototype.toString('base64'): RFC 4648 base64 with padding,
on a byte list. -/
def base64Encode : List Nat → String
  | [] => ""
  | [a] => String.mk [b64char (a / 4), b64char (a % 4 * 16), '=', '=']
  | [a, b] => String.mk [b64char (a / 4), b64char (a % 4 * 16 + b / 16), b64char (b % 16 * 4), '=']
  | a :: b :: c :: rest =>
    String.mk [b64char (a / 4), b64char (a % 4 * 16 + b / 16),
      b64char (b % 16 * 4 + c / 64), b64char (c % 64)] ++ base64Encode rest

/-- binaryData.mimeType || 'application/octet-stream' from the node. -/
def mimeOrDefault : Option String → String
  | some m => if m = "" then "application/octet-stream" else m
  | none => "application/octet-stream"

/-- The data URI built for a binary upload:
data:${mimeType};base64,${base64}. -/
def dataUriOf (mime : Option String) (buf : List Nat) : String :=
  "data:" ++ mimeOrDefault mime ++ ";base64," ++ base64Encode buf

-- ---------------------------------------------------------------------------
-- Parameter model (what this.getNodeParameter returns for one item)
-- ---------------------------------------------------------------------------

/-- One entry of the 'postContentAdditionalPosts' fixedCollection
(manual thread input): a text and a comma-separated mediaUrls string. -/
structure ManualThreadPost where
  text : String
  mediaUrls : String
  deriving Repr, DecidableEq

/-- The mediaUrls property of one element of the 'threadPostsArray' input, as a
JavaScript value: absent/falsy, a string, an array of strings, or some other
truthy value. -/
inductive JsMediaUrls where
  | absent
  | ofString (s : String)
  | ofArray (l : List String)
  | otherTruthy
  deriving Repr, DecidableEq

/-- One element of the parsed 'threadPostsArray' array: its text property
(possibly undefined) and its mediaUrls property. -/
structure ArrayThreadPost where
  text : Option String
  mediaUrls : JsMediaUrls
  deriving Repr, DecidableEq

/-- A JavaScript value that the 'threadPostsArray' parameter can evaluate to
after the optional JSON.parse: an array of post objects, or any non-array
value. -/
inductive JsThread where
  | notArray
  | array (l : List ArrayThreadPost)
  deriving Repr, DecidableEq

/-- The raw 'threadPostsArray' parameter: either a string (Fixed mode), carrying
the outcome of JSON.parse on it (none when JSON.parse would throw), or a
non-string value supplied by an expression. -/
inductive ThreadPostsArrayParam where
  | jstring (s : String) (parsed : Option JsThread)
  | jvalue (v : JsThread)
  deriving Repr, DecidableEq

/-- The 'linkedinPageId' option: the node accepts either a plain string or a
resourceLocator object whose value may be missing. -/
inductive LinkedinPageParam where
  | str (s : String)
  | obj (value : Option String)
  deriving Repr, DecidableEq

/-- The 'options' collection parameter of post:create (absent entries are none). -/
structure PostOptions where
  scheduledTime : Option String := none
  linkedinPageId : Option LinkedinPageParam := none
  facebookMediaType : Option String := none
  instagramMediaType : Option String := none
  pinterestAltText : Option String := none
  pinterestLink : Option String := none
  threadsReplyControl : Option String := none
  youtubeMadeForKids : Option Bool := none
  deriving Repr, DecidableEq

/-- All parameters one execution item can supply to Blotato.execute.
resourceLocator parameters appear as the .value string the code extracts;
the binary item of a binary upload appears as its byte buffer and mimeType. -/
structure NodeParams where
  resource : String
  operation : String
  useBinaryData : Bool
  binaryPropertyName : String
  binaryMimeType : Option String
  binaryBuffer : List Nat
  mediaUrl : String
  platform : String
  accountId : String
  postContentText : String
  postContentMediaUrls : String
  threadInputMethod : String
  postContentAdditionalPosts : List ManualThreadPost
  threadPostsArray : ThreadPostsArrayParam
  postCreateTiktokOptionPrivacyLevel : String
  postCreateTiktokOptionDisabledComments : Bool
  postCreateTiktokOptionDisabledDuet : Bool
  postCreateTiktokOptionDisabledStitch : Bool
  postCreateTiktokOptionIsBrandedContent : Bool
  postCreateTiktokOptionIsYourBrand : Bool
  postCreateTiktokOptionIsAiGenerated : Bool
  postCreateTiktokOptionAutoAddMusic : Option Bool
  facebookPageId : String
  pinterestBoardId : String
  postCreatePinterestOptionTitle : String
  postCreateYoutubeOptionTitle : String
  postCreateYoutubeOptionPrivacyStatus : String
  postCreateYoutubeOptionShouldNotifySubscribers : Bool
  options : PostOptions
  deriving Repr, DecidableEq

-- ---------------------------------------------------------------------------
-- Request model (what execute would send)
-- ---------------------------------------------------------------------------

/-- One entry of post.content.additionalPosts in the built body. -/
structure ThreadPostOut where
  text : String
  mediaUrls : List String
  deriving Repr, DecidableEq

/-- The post.target object of the built body.  Fields other than targetType
are absent (none) unless the platform-specific code sets them. -/
structure PostTarget where
  targetType : String
  pageId : Option String := none
  mediaType : Option String := none
  privacyLevel : Option String := none
  disabledComments : Option Bool := none
  disabledDuet : Option Bool := none
  disabledStitch : Option Bool := none
  isBrandedContent : Option Bool := none
  isYourBrand : Option Bool := none
  isAiGenerated : Option Bool := none
  autoAddMusic : Option (Option Bool) := none
  replyControl : Option String := none
  boardId : Option String := none
  title : Option String := none
  altText : Option String := none
  link : Option String := none
  privacyStatus : Option String := none
  shouldNotifySubscribers : Option Bool := none
  isMadeForKids : Option Bool := none
  deriving Repr, DecidableEq

/-- The post.content object of the built body. -/
structure PostContent where
  platform : String
  text : String
  mediaUrls : List String
  additionalPosts : Option (List ThreadPostOut) := none
  deriving Repr, DecidableEq

/-- The post object of the built body. -/
structure PostObj where
  target : PostTarget
  content : PostContent
  accountId : String
  deriving Repr, DecidableEq

/-- The whole JSON body of a post:create request; scheduledTime sits at the
root level, beside post, when present. -/
structure PostBody where
  post : PostObj
  scheduledTime : Option String := none
  deriving Repr, DecidableEq

/-- The JSON body of a request built by execute. -/
inductive ReqBody where
  | mediaBody (url : String)
  | postBody (b : PostBody)
  deriving Repr, DecidableEq

/-- An HTTP request built by execute: method, path relative to the
credential's server, and JSON body. -/
structure BuiltRequest where
  method : String
  path : String
  body : ReqBody
  deriving Repr, DecidableEq

/-- Outcome of execute for one item: a built request, or a thrown
NodeOperationError (no request issued). -/
inductive ExecResult where
  | ok (req : BuiltRequest)
  | nodeError (msg : String)
  deriving Repr, DecidableEq

/-- The full request URI: execute prepends the blotatoApi credential's server
to the relative path (options.uri = credentials.server + options.uri). -/
def finalRequestUri (server : String) (r : BuiltRequest) : String :=
  server ++ r.path

-- ---------------------------------------------------------------------------
-- Error messages thrown by execute
-- ---------------------------------------------------------------------------

/-- Message of the NodeOperationError for an unsupported media operation. -/
def mediaOpUnsupportedMsg (op : String) : String :=
  "Operation \"" ++ op ++ "\" is not supported for resource \"media\"."

/-- Message of the NodeOperationError for an unsupported resource. -/
def resourceUnsupportedMsg (res : String) : String :=
  "Resource \"" ++ res ++ "\" is not supported."

/-- Message of the NodeOperationError for an unsupported platform of post. -/
def platformUnsupportedMsg (plat : String) : String :=
  "Platform \"" ++ plat ++ "\" is not supported for resource \"post\"."

/-- Message of the NodeOperationError when a platform that requires media gets
an empty media URL list. -/
def mediaRequiredMsg (plat : String) : String :=
  jsCapitalize plat ++ " requires you to post an image or video."

/-- Message of the NodeOperationError when the Thread Posts string fails to
parse as JSON. -/
def threadParseMsg : String :=
  "Thread Posts must be a valid JSON array. Example: [\x7b\"text\": \"Post 1\", \"mediaUrls\": []\x7d, \x7b\"text\": \"Post 2\", \"mediaUrls\": [\"https://database.blotato.io/image.jpg\"]\x7d]"

-- ---------------------------------------------------------------------------
-- Embedding of Blotato.execute (src/nodes/Blotato/Blotato.node.ts)
-- ---------------------------------------------------------------------------

/-- THREAD_SUPPORTED_PLATFORMS from the node. -/
def THREAD_SUPPORTED_PLATFORMS : List String := ["twitter", "threads", "bluesky"]

/-- The platforms for which execute validates that mediaUrls is non-empty. -/
def requiresMediaPlatforms : List String := ["instagram", "tiktok", "pinterest", "youtube"]

/-- The common post.content object built first by the post:create branch
(additionalPosts filled in later by the thread handling). -/
def baseContent (p : NodeParams) : PostContent :=
  { platform := p.platform
    text := p.postContentText
    mediaUrls := splitUrls p.postContentMediaUrls }

/-- One manual thread entry mapped to an output post:
mediaUrls is split/trimmed/filtered when truthy, else []. -/
def manualOut (mp : ManualThreadPost) : ThreadPostOut :=
  { text := mp.text
    mediaUrls := if mp.mediaUrls = "" then [] else splitUrls mp.mediaUrls }

/-- mediaUrls of one array-input thread entry: an array value is used
directly; a truthy string is split/trimmed/filtered; anything else gives []. -/
def jsMediaOut : JsMediaUrls → List String
  | .absent => []
  | .ofString s => if s = "" then [] else splitUrls s
  | .ofArray l => l
  | .otherTruthy => []

/-- One array-input thread entry mapped to an output post
(text: post.text || ''). -/
def arrayOut (ap : ArrayThreadPost) : ThreadPostOut :=
  { text := ap.text.getD ""
    mediaUrls := jsMediaOut ap.mediaUrls }

/-- The additionalPosts yielded by an already-parsed Thread Posts value:
a non-empty array yields its mapped posts, anything else yields nothing. -/
def arrayYield : JsThread → Option (List ThreadPostOut)
  | .notArray => none
  | .array l => if l.length > 0 then some (l.map arrayOut) else none

/-- The array input method of the thread block: a non-blank string is
JSON-parsed (throwing on failure), a blank string stays a non-array value,
and the resulting value yields the additional posts via arrayYield. -/
def threadArrayBranch : ThreadPostsArrayParam → Except String (Option (List ThreadPostOut))
  | .jstring s parsed =>
    if jsTrim s ≠ "" then
      match parsed with
      | none => .error threadParseMsg
      | some v => .ok (arrayYield v)
    else .ok (arrayYield .notArray)
  | .jvalue v => .ok (arrayYield v)

/-- The thread-handling block of execute: for thread-supported platforms it
may set post.content.additionalPosts (some posts) or throw a
NodeOperationError when the Thread Posts string is invalid JSON;
otherwise it leaves the body alone (ok none). -/
def threadOutputs (p : NodeParams) : Except String (Option (List ThreadPostOut)) :=
  if THREAD_SUPPORTED_PLATFORMS.contains p.platform then
    if p.threadInputMethod = "manual" then
      if p.postContentAdditionalPosts.length > 0 then
        .ok (some (p.postContentAdditionalPosts.map manualOut))
      else .ok none
    else if p.threadInputMethod = "array" then
      threadArrayBranch p.threadPostsArray
    else .ok none
  else .ok none

/-- The pageId value extracted from the linkedinPageId option: the option must
be truthy, its .value (object form) or itself (string form) must be truthy. -/
def linkedinPageValue (o : Option LinkedinPageParam) : Option String :=
  match o with
  | none => none
  | some lp =>
    let truthy : Bool := match lp with
      | .str s => s != ""
      | .obj _ => true
    if truthy then
      let v : Option String := match lp with
        | .str s => some s
        | .obj ov => ov
      match v with
      | some s => if s = "" then none else some s
      | none => none
    else none

/-- The platform-specific switch of execute: starting from
target = (targetType: platform), each supported platform adds its fields;
an unsupported platform throws a NodeOperationError. -/
def platformTarget (p : NodeParams) : Except String PostTarget :=
  let t : PostTarget := { targetType := p.platform }
  if p.platform = "facebook" then
    .ok { t with
      pageId := some p.facebookPageId
      mediaType := jsTruthyOpt p.options.facebookMediaType }
  else if p.platform = "tiktok" then
    .ok { t with
      privacyLevel := some p.postCreateTiktokOptionPrivacyLevel
      disabledComments := some p.postCreateTiktokOptionDisabledComments
      disabledDuet := some p.postCreateTiktokOptionDisabledDuet
      disabledStitch := some p.postCreateTiktokOptionDisabledStitch
      isBrandedContent := some p.postCreateTiktokOptionIsBrandedContent
      isYourBrand := some p.postCreateTiktokOptionIsYourBrand
      isAiGenerated := some p.postCreateTiktokOptionIsAiGenerated
      autoAddMusic := some p.postCreateTiktokOptionAutoAddMusic }
  else if p.platform = "bluesky" then
    .ok t
  else if p.platform = "threads" then
    .ok { t with replyControl := jsTruthyOpt p.options.threadsReplyControl }
  else if p.platform = "linkedin" then
    .ok { t with pageId := linkedinPageValue p.options.linkedinPageId }
  else if p.platform = "instagram" then
    .ok { t with mediaType := jsTruthyOpt p.options.instagramMediaType }
  else if p.platform = "pinterest" then
    .ok { t with
      boardId := some p.pinterestBoardId
      title := jsTruthyStr p.postCreatePinterestOptionTitle
      altText := jsTruthyOpt p.options.pinterestAltText
      link := jsTruthyOpt p.options.pinterestLink }
  else if p.platform = "youtube" then
    .ok { t with
      title := some p.postCreateYoutubeOptionTitle
      privacyStatus := some p.postCreateYoutubeOptionPrivacyStatus
      shouldNotifySubscribers := some p.postCreateYoutubeOptionShouldNotifySubscribers
      isMadeForKids := p.options.youtubeMadeForKids }
  else if p.platform = "twitter" then
    .ok t
  else
    .error (platformUnsupportedMsg p.platform)

/-- The scheduledTime handling of execute: a truthy option is placed at the
root of the body, with 'Z' appended unless the string contains 'Z',
contains '+', or ends in a timezone offset. -/
def scheduledTimeField (o : Option String) : Option String :=
  match o with
  | none => none
  | some s =>
    if s = "" then none
    else
      let hasTimezone := jsContainsChar s 'Z' || jsContainsChar s '+' || endsWithOffset s
      some (if hasTimezone then s else s ++ "Z")

/-- The request a successful post:create run assembles. -/
def postReqOf (p : NodeParams) (addl : Option (List ThreadPostOut)) (tgt : PostTarget) :
    BuiltRequest :=
  { method := "POST"
    path := "/v2/posts"
    body := .postBody
      { post :=
          { target := tgt
            content := { baseContent p with additionalPosts := addl }
            accountId := p.accountId }
        scheduledTime := scheduledTimeField p.options.scheduledTime } }

/-- The post branch of execute (resource 'post'; the operation parameter is
never consulted): build the common body, validate media requirements,
handle scheduledTime and threads, then run the platform switch. -/
def buildPostRequest (p : NodeParams) : ExecResult :=
  if requiresMediaPlatforms.contains p.platform &&
      (splitUrls p.postContentMediaUrls).length == 0 then
    .nodeError (mediaRequiredMsg p.platform)
  else
    match threadOutputs p with
    | .error m => .nodeError m
    | .ok addl =>
      match platformTarget p with
      | .error m => .nodeError m
      | .ok tgt => .ok (postReqOf p addl tgt)

/-- The media branch of execute: operation 'upload' posts the media URL or a
base64 data URI of the binary buffer to /v2/media; any other operation
throws a NodeOperationError. -/
def buildMediaRequest (p : NodeParams) : ExecResult :=
  if p.operation = "upload" then
    if p.useBinaryData then
      .ok { method := "POST", path := "/v2/media"
            body := .mediaBody (dataUriOf p.binaryMimeType p.binaryBuffer) }
    else
      .ok { method := "POST", path := "/v2/media", body := .mediaBody p.mediaUrl }
  else
    .nodeError (mediaOpUnsupportedMsg p.operation)

/-- Blotato.execute for one input item (src/nodes/Blotato/Blotato.node.ts,
lines 823-1113): dispatch on the resource parameter. -/
def executeItem (p : NodeParams) : ExecResult :=
  if p.resource = "media" then buildMediaRequest p
  else if p.resource = "post" then buildPostRequest p
  else .nodeError (resourceUnsupportedMsg p.resource)

-- ---------------------------------------------------------------------------
-- Embedding of the later node revision (src/unnamed/part_003): media upload
-- with a binary size cap
-- ---------------------------------------------------------------------------

/-- BINARY_UPLOAD_MAX_SIZE_MB from src/unnamed/part_003. -/
def BINARY_UPLOAD_MAX_SIZE_MB : Nat := 15

/-- BINARY_UPLOAD_MAX_SIZE_BYTES from src/unnamed/part_003. -/
def BINARY_UPLOAD_MAX_SIZE_BYTES : Nat := BINARY_UPLOAD_MAX_SIZE_MB * 1024 * 1024

/-- Two-decimal rendering of len/1MB used in the size error message
((dataBuffer.length / (1024 * 1024)).toFixed(2)); JavaScript formats an IEEE
double, embedded here as exact rounding half up to two decimals. -/
def mbFixed2 (len : Nat) : String :=
  let cents := (len * 100 + 524288) / 1048576
  toString (cents / 100) ++ "." ++
    (if cents % 100 < 10 then "0" ++ toString (cents % 100) else toString (cents % 100))

/-- Message of the NodeOperationError thrown by src/unnamed/part_003 when a
binary buffer exceeds the upload size cap. -/
def binarySizeErrorMsg (len : Nat) : String :=
  "File size (" ++ mbFixed2 len ++ "MB) exceeds " ++ toString BINARY_UPLOAD_MAX_SIZE_MB ++
    "MB limit. Large files should be uploaded via URL instead of binary data. You can use Google Drive (up to 60MB), Dropbox, Frame.io, or similar services. S3/GCS buckets are recommended for very large files."

/-- The media branch of execute in src/unnamed/part_003 (lines 1532-1572):
like buildMediaRequest, but a binary buffer strictly larger than
BINARY_UPLOAD_MAX_SIZE_BYTES throws before any request is built. -/
def buildMediaRequest_v3 (p : NodeParams) : ExecResult :=
  if p.operation = "upload" then
    if p.useBinaryData then
      if p.binaryBuffer.length > BINARY_UPLOAD_MAX_SIZE_BYTES then
        .nodeError (binarySizeErrorMsg p.binaryBuffer.length)
      else
        .ok { method := "POST", path := "/v2/media"
              body := .mediaBody (dataUriOf p.binaryMimeType p.binaryBuffer) }
    else
      .ok { method := "POST", path := "/v2/media", body := .mediaBody p.mediaUrl }
  else
    .nodeError (mediaOpUnsupportedMsg p.operation)

-- ---------------------------------------------------------------------------
-- Embedding of SearchFunctions.ts (first revision: getAccounts, getSubaccounts)
-- ---------------------------------------------------------------------------

/-- One element of the items field of the accounts API response. -/
structure AccountSearchItem where
  id : String
  platform : String
  fullname : String
  username : String
  deriving Repr, DecidableEq

/-- One element of the items field of the subaccounts API response. -/
structure SubaccountSearchItem where
  id : String
  accountId : String
  name : String
  deriving Repr, DecidableEq

/-- One dropdown entry returned by a list-search function. -/
structure NodeListSearchItem where
  name : String
  value : String
  url : String
  deriving Repr, DecidableEq

/-- The GET request options built by a list-search function: method, full URI
(credentials.server already prepended, as in the source) and the platform
query-string entry. -/
structure SearchRequestOptions where
  method : String
  uri : String
  qsPlatform : String
  deriving Repr, DecidableEq

/-- The request getAccounts issues
(options.uri = credentials.server + '/v2/users/me/accounts'). -/
def getAccountsRequest (server platform : String) : SearchRequestOptions :=
  { method := "GET", qsPlatform := platform
    uri := server ++ "/v2/users/me/accounts" }

/-- The request getSubaccounts issues (options.uri = credentials.server +
'/v2/users/me/accounts/' + accountId + '/subaccounts'). -/
def getSubaccountsRequest (server platform accountId : String) : SearchRequestOptions :=
  { method := "GET", qsPlatform := platform
    uri := server ++ ("/v2/users/me/accounts/" ++ accountId ++ "/subaccounts") }

/-- getAccounts reshaping of the response: one dropdown entry per element of
items, name = item.fullname || item.username, value = item.id. -/
def getAccountsResults (server : String) (items : List AccountSearchItem) :
    List NodeListSearchItem :=
  items.map fun item =>
    { name := if item.fullname = "" then item.username else item.fullname
      value := item.id
      url := server ++ "/v2/accounts/" ++ item.id }

/-- getSubaccounts reshaping of the response: one dropdown entry per element of
items, name = item.name, value = item.id. -/
def getSubaccountsResults (server : String) (items : List SubaccountSearchItem) :
    List NodeListSearchItem :=
  items.map fun item =>
    { name := item.name
      value := item.id
      url := server ++ "/v2/accounts/" ++ item.accountId ++ "/subaccounts/" ++ item.id }

-- ---------------------------------------------------------------------------
-- Concrete example items (used to instantiate the theorems below)
-- ---------------------------------------------------------------------------

/-- A basic post:create item for the bluesky platform with no optional input. -/
def baseParams : NodeParams :=
  { resource := "post"
    operation := "create"
    useBinaryData := false
    binaryPropertyName := "data"
    binaryMimeType := none
    binaryBuffer := []
    mediaUrl := ""
    platform := "bluesky"
    accountId := "1"
    postContentText := "hello"
    postContentMediaUrls := ""
    threadInputMethod := "manual"
    postContentAdditionalPosts := []
    threadPostsArray := .jvalue .notArray
    postCreateTiktokOptionPrivacyLevel := "PUBLIC_TO_EVERYONE"
    postCreateTiktokOptionDisabledComments := false
    postCreateTiktokOptionDisabledDuet := false
    postCreateTiktokOptionDisabledStitch := false
    postCreateTiktokOptionIsBrandedContent := false
    postCreateTiktokOptionIsYourBrand := false
    postCreateTiktokOptionIsAiGenerated := false
    postCreateTiktokOptionAutoAddMusic := none
    facebookPageId := ""
    pinterestBoardId := ""
    postCreatePinterestOptionTitle := ""
    postCreateYoutubeOptionTitle := ""
    postCreateYoutubeOptionPrivacyStatus := "public"
    postCreateYoutubeOptionShouldNotifySubscribers := true
    options := {} }

/-- A post item whose operation is 'delete', an operation the UI never offers:
the post branch of execute still builds a create request for it. -/
def postDeleteParams : NodeParams := { baseParams with operation := "delete" }

/-- A media upload item carrying the two bytes 'Hi' as binary data. -/
def mediaBinParams : NodeParams :=
  { baseParams with
      resource := "media", operation := "upload", useBinaryData := true
      binaryMimeType := some "image/png", binaryBuffer := [72, 105] }

/-- A media item with the unsupported operation 'download'. -/
def mediaBadOpParams : NodeParams :=
  { baseParams with resource := "media", operation := "download" }

/-- An item with an unsupported resource. -/
def badResourceParams : NodeParams := { baseParams with resource := "video" }

/-- A youtube post:create item whose options set youtubeMadeForKids := false. -/
def youtubeKidsParams : NodeParams :=
  { baseParams with
      platform := "youtube"
      postContentMediaUrls := "https://a.example/v.mp4"
      postCreateYoutubeOptionTitle := "T"
      options := { youtubeMadeForKids := some false } }

/-- An instagram post:create item whose media URL string parses to []. -/
def instagramNoMediaParams : NodeParams :=
  { baseParams with platform := "instagram", postContentMediaUrls := " , " }

/-- A facebook post:create item with a page id and a media type option. -/
def facebookParams : NodeParams :=
  { baseParams with
      platform := "facebook", facebookPageId := "123"
      options := { facebookMediaType := some "reel" } }

/-- A twitter post:create item whose thread input is an already-parsed array
whose first element carries a raw mediaUrls array with padded and empty
entries. -/
def twitterRawArrayParams : NodeParams :=
  { baseParams with
      platform := "twitter"
      threadInputMethod := "array"
      threadPostsArray := .jvalue (.array
        [{ text := some "second", mediaUrls := .ofArray ["", "  x "] }]) }

/-- A twitter post:create item with one manual thread entry. -/
def twitterManualParams : NodeParams :=
  { baseParams with
      platform := "twitter"
      postContentAdditionalPosts := [{ text := "second", mediaUrls := " https://a.example/1.jpg ," }] }

/-- A post:create item with a scheduledTime lacking timezone information. -/
def scheduledParams : NodeParams :=
  { baseParams with options := { scheduledTime := some "2024-12-31T23:59:59" } }

/-- A binary media upload one byte over the 15MB cap of src/unnamed/part_003. -/
def bigBinParams : NodeParams :=
  { baseParams with
      resource := "media", operation := "upload", useBinaryData := true
      binaryMimeType := some "video/mp4"
      binaryBuffer := List.replicate (BINARY_UPLOAD_MAX_SIZE_BYTES + 1) 0 }

/-- The elements of the array-method Thread Posts input that reach the
mapping step as a JavaScript array (the verbatim source of any
passed-through mediaUrls arrays). -/
def rawArrayElemsOf : ThreadPostsArrayParam → List ArrayThreadPost
  | .jstring s (some (.array l)) => if jsTrim s ≠ "" then l else []
  | .jstring _ _ => []
  | .jvalue (.array l) => l
  | .jvalue _ => []

/-- The array elements of the Thread Posts parameter of one item. -/
def rawArrayElems (p : NodeParams) : List ArrayThreadPost :=
  rawArrayElemsOf p.threadPostsArray

/-- The request executeItem builds for baseParams (and for postDeleteParams,
whose operation differs but is never consulted). -/
def blueskyBaseReq : BuiltRequest :=
  { method := "POST"
    path := "/v2/posts"
    body := .postBody
      { post :=
          { target := { targetType := "bluesky" }
            content := { platform := "bluesky", text := "hello", mediaUrls := [] }
            accountId := "1" } } }

/-- The post.target executeItem builds for youtubeKidsParams: it carries
isMadeForKids := some false beside the three always-set youtube fields. -/
def youtubeKidsTarget : PostTarget :=
  { targetType := "youtube"
    title := some "T"
    privacyStatus := some "public"
    shouldNotifySubscribers := some true
    isMadeForKids := some false }

/-- The body executeItem builds for youtubeKidsParams. -/
def youtubeKidsBody : PostBody :=
  { post :=
      { target := youtubeKidsTarget
        content := { platform := "youtube", text := "hello", mediaUrls := ["https://a.example/v.mp4"] }
        accountId := "1" } }

/-- The request executeItem builds for youtubeKidsParams. -/
def youtubeKidsReq : BuiltRequest :=
  { method := "POST", path := "/v2/posts", body := .postBody youtubeKidsBody }

/-- The body executeItem builds for facebookParams. -/
def facebookBody : PostBody :=
  { post :=
      { target := { targetType := "facebook", pageId := some "123", mediaType := some "reel" }
        content := { platform := "facebook", text := "hello", mediaUrls := [] }
        accountId := "1" } }

/-- The request executeItem builds for facebookParams. -/
def facebookReq : BuiltRequest :=
  { method := "POST", path := "/v2/posts", body := .postBody facebookBody }

/-- The additional thread post executeItem builds for twitterRawArrayParams:
its mediaUrls array is passed through verbatim, keeping the empty and the
padded entry. -/
def twitterRawArrayOut : ThreadPostOut :=
  { text := "second", mediaUrls := ["", "  x "] }

/-- The body executeItem builds for twitterRawArrayParams. -/
def twitterRawArrayBody : PostBody :=
  { post :=
      { target := { targetType := "twitter" }
        content := { platform := "twitter", text := "hello", mediaUrls := []
                     additionalPosts := some [twitterRawArrayOut] }
        accountId := "1" } }

/-- The request executeItem builds for twitterRawArrayParams. -/
def twitterRawArrayReq : BuiltRequest :=
  { method := "POST", path := "/v2/posts", body := .postBody twitterRawArrayBody }

/-- The additional thread post executeItem builds for twitterManualParams. -/
def twitterManualOut : ThreadPostOut :=
  { text := "second", mediaUrls := ["https://a.example/1.jpg"] }

/-- The body executeItem builds for twitterManualParams. -/
def twitterManualBody : PostBody :=
  { post :=
      { target := { targetType := "twitter" }
        content := { platform := "twitter", text := "hello", mediaUrls := []
                     additionalPosts := some [twitterManualOut] }
        accountId := "1" } }

/-- The request executeItem builds for twitterManualParams. -/
def twitterManualReq : BuiltRequest :=
  { method := "POST", path := "/v2/posts", body := .postBody twitterManualBody }

/-- The body executeItem builds for scheduledParams: the naive timestamp gets
'Z' appended and sits at the root of the body. -/
def scheduledBody : PostBody :=
  { post :=
      { target := { targetType := "bluesky" }
        content := { platform := "bluesky", text := "hello", mediaUrls := [] }
        accountId := "1" }
    scheduledTime := some "2024-12-31T23:59:59Z" }

/-- The request executeItem builds for scheduledParams. -/
def scheduledReq : BuiltRequest :=
  { method := "POST", path := "/v2/posts", body := .postBody scheduledBody }

/-- Sample accounts response: the first element has a fullname, the second
falls back to its username. -/
def sampleAccounts : List AccountSearchItem :=
  [{ id := "1", platform := "twitter", fullname := "Ada", username := "ada" },
   { id := "2", platform := "twitter", fullname := "", username := "bob" }]

/-- Sample subaccounts response with a single element. -/
def sampleSubs : List SubaccountSearchItem :=
  [{ id := "9", accountId := "1", name := "Page" }]

-- ---------------------------------------------------------------------------
-- Helper notions and lemmas shared by the claim theorems
-- ---------------------------------------------------------------------------

/-- A string with no leading and no trailing JS whitespace. -/
def isJsTrimmed (u : String) : Bool :=
  (match u.data.head? with
   | some c => !isJsWs c
   | none => true) &&
  (match u.data.getLast? with
   | some c => !isJsWs c
   | none => true)

theorem head?_dropWhile_false {α : Type} (p : α → Bool) (l : List α) (c : α)
    (h : (l.dropWhile p).head? = some c) : p c = false := by
  induction l with
  | nil => simp [List.dropWhile] at h
  | cons a t ih =>
    rw [List.dropWhile_cons] at h
    split at h
    · exact ih h
    · simp only [List.head?_cons, Option.some.injEq] at h
      subst h
      simp_all

theorem getLast?_dropWhile_ne {α : Type} (p : α → Bool) (l : List α)
    (h : l.dropWhile p ≠ []) : (l.dropWhile p).getLast? = l.getLast? := by
  induction l with
  | nil => simp [List.dropWhile] at h
  | cons a t ih =>
    rw [List.dropWhile_cons]
    rw [List.dropWhile_cons] at h
    split
    · next hpa =>
      rw [if_pos hpa] at h
      cases t with
      | nil => simp [List.dropWhile] at h
      | cons b t' =>
        rw [List.getLast?_cons_cons]
        exact ih h
    · rfl

theorem trimChars_head (l : List Char) (c : Char)
    (h : (trimChars l).head? = some c) : isJsWs c = false := by
  unfold trimChars at h
  rw [List.head?_reverse] at h
  have hne : (l.dropWhile isJsWs).reverse.dropWhile isJsWs ≠ [] := by
    intro hnil
    rw [hnil] at h
    simp at h
  rw [getLast?_dropWhile_ne _ _ hne, List.getLast?_reverse] at h
  exact head?_dropWhile_false _ _ _ h

theorem trimChars_getLast (l : List Char) (c : Char)
    (h : (trimChars l).getLast? = some c) : isJsWs c = false := by
  unfold trimChars at h
  rw [List.getLast?_reverse] at h
  exact head?_dropWhile_false _ _ _ h

theorem isJsTrimmed_jsTrim (s : String) : isJsTrimmed (jsTrim s) = true := by
  unfold isJsTrimmed jsTrim
  cases hh : (trimChars s.data).head? with
  | none =>
    cases hg : (trimChars s.data).getLast? with
    | none => simp [hh, hg]
    | some c => simp [hh, hg, trimChars_getLast s.data c hg]
  | some c =>
    cases hg : (trimChars s.data).getLast? with
    | none => simp [hh, hg, trimChars_head s.data c hh]
    | some d => simp [hh, hg, trimChars_head s.data c hh, trimChars_getLast s.data d hg]

theorem splitUrls_trimmed (s u : String) (h : u ∈ splitUrls s) :
    isJsTrimmed u = true ∧ u ≠ "" := by
  unfold splitUrls at h
  rw [List.mem_filter] at h
  obtain ⟨hmem, hne⟩ := h
  rw [List.mem_map] at hmem
  obtain ⟨x, _, rfl⟩ := hmem
  refine ⟨isJsTrimmed_jsTrim x, ?_⟩
  simpa using hne

theorem executeItem_post (p : NodeParams) (hres : p.resource = "post") :
    executeItem p = buildPostRequest p := by
  unfold executeItem
  rw [hres]
  simp

theorem buildPostRequest_ok (p : NodeParams) (r : BuiltRequest)
    (h : buildPostRequest p = .ok r) :
    ∃ addl tgt, threadOutputs p = .ok addl ∧ platformTarget p = .ok tgt ∧
      r = postReqOf p addl tgt := by
  unfold buildPostRequest at h
  split at h
  · simp at h
  · cases hth : threadOutputs p with
    | error m => rw [hth] at h; simp at h
    | ok addl =>
      rw [hth] at h
      cases hpt : platformTarget p with
      | error m => rw [hpt] at h; simp at h
      | ok tgt =>
        rw [hpt] at h
        simp only [ExecResult.ok.injEq] at h
        exact ⟨addl, tgt, rfl, rfl, h.symm⟩

theorem platformTarget_targetType (p : NodeParams) (tgt : PostTarget)
    (h : platformTarget p = .ok tgt) : tgt.targetType = p.platform := by
  unfold platformTarget at h
  repeat' split at h
  all_goals first
    | (injection h with h2; subst h2; rfl)
    | simp at h

theorem threadOutputs_not_supported (p : NodeParams)
    (h : THREAD_SUPPORTED_PLATFORMS.contains p.platform = false) :
    threadOutputs p = .ok none := by
  unfold threadOutputs
  rw [h]
  simp

theorem arrayYield_some (v : JsThread) (l : List ThreadPostOut)
    (h : arrayYield v = some l) : l ≠ [] := by
  cases v with
  | notArray => simp [arrayYield] at h
  | array la =>
    simp only [arrayYield] at h
    split at h
    · next hlen =>
      injection h with h
      subst h
      intro hnil
      rw [List.map_eq_nil_iff] at hnil
      subst hnil
      simp at hlen
    · simp at h

theorem threadArrayBranch_some (tp : ThreadPostsArrayParam) (l : List ThreadPostOut)
    (h : threadArrayBranch tp = .ok (some l)) : l ≠ [] := by
  cases tp with
  | jstring s parsed =>
    simp only [threadArrayBranch] at h
    split at h
    · cases parsed with
      | none => simp at h
      | some v =>
        simp only [Except.ok.injEq] at h
        exact arrayYield_some _ _ h
    · simp only [Except.ok.injEq] at h
      simp [arrayYield] at h
  | jvalue v =>
    simp only [threadArrayBranch, Except.ok.injEq] at h
    exact arrayYield_some _ _ h

theorem threadArrayBranch_error (tp : ThreadPostsArrayParam) (m : String)
    (h : threadArrayBranch tp = .error m) : m = threadParseMsg := by
  cases tp with
  | jstring s parsed =>
    simp only [threadArrayBranch] at h
    split at h
    · cases parsed with
      | none =>
        simp only [Except.error.injEq] at h
        exact h.symm
      | some v => simp at h
    · simp at h
  | jvalue v => simp [threadArrayBranch] at h

theorem threadOutputs_some (p : NodeParams) (l : List ThreadPostOut)
    (h : threadOutputs p = .ok (some l)) :
    THREAD_SUPPORTED_PLATFORMS.contains p.platform = true ∧ l ≠ [] := by
  unfold threadOutputs at h
  split at h
  · next hc =>
    refine ⟨hc, ?_⟩
    split at h
    · split at h
      · next hlen =>
        simp only [Except.ok.injEq, Option.some.injEq] at h
        subst h
        intro hnil
        rw [List.map_eq_nil_iff] at hnil
        simp [hnil] at hlen
      · simp at h
    · split at h
      · exact threadArrayBranch_some _ _ h
      · simp at h
  · simp at h

theorem threadOutputs_error (p : NodeParams) (m : String)
    (h : threadOutputs p = .error m) : m = threadParseMsg := by
  unfold threadOutputs at h
  split at h
  · split at h
    · split at h <;> simp at h
    · split at h
      · exact threadArrayBranch_error _ _ h
      · simp at h
  · simp at h

theorem contains_eq_false_of_not_mem {l : List String} {a : String} (h : a ∉ l) :
    l.contains a = false := by
  rw [Bool.eq_false_iff]
  intro hc
  exact h (List.mem_of_elem_eq_true hc)

theorem buildMediaRequest_ok (p : NodeParams) (r : BuiltRequest)
    (h : buildMediaRequest p = .ok r) :
    r.method = "POST" ∧ r.path = "/v2/media" := by
  unfold buildMediaRequest at h
  repeat' split at h
  all_goals first
    | (injection h with h2; subst h2; exact ⟨rfl, rfl⟩)
    | simp at h

theorem executeItem_ok_path (p : NodeParams) (r : BuiltRequest)
    (h : executeItem p = .ok r) :
    r.method = "POST" ∧ (r.path = "/v2/media" ∨ r.path = "/v2/posts") := by
  unfold executeItem at h
  split at h
  · obtain ⟨hm, hp⟩ := buildMediaRequest_ok p r h
    exact ⟨hm, Or.inl hp⟩
  · split at h
    · obtain ⟨addl, tgt, _, _, hr⟩ := buildPostRequest_ok p r h
      subst hr
      exact ⟨rfl, Or.inr rfl⟩
    · simp at h

theorem platformTarget_ok_of_supported (p : NodeParams)
    (h : p.platform = "bluesky" ∨ p.platform = "facebook" ∨ p.platform = "linkedin" ∨
      p.platform = "threads" ∨ p.platform = "twitter") :
    ∃ tgt, platformTarget p = .ok tgt := by
  unfold platformTarget
  rcases h with h | h | h | h | h <;> rw [h] <;> simp

theorem threadArrayBranch_elem (tp : ThreadPostsArrayParam) (l : List ThreadPostOut)
    (t : ThreadPostOut) (h : threadArrayBranch tp = .ok (some l)) (ht : t ∈ l) :
    ∃ ap ∈ rawArrayElemsOf tp, t = arrayOut ap := by
  cases tp with
  | jstring s parsed =>
    simp only [threadArrayBranch] at h
    split at h
    · next htrim =>
      cases parsed with
      | none => simp at h
      | some v =>
        cases v with
        | notArray => simp [arrayYield] at h
        | array la =>
          simp only [arrayYield, Except.ok.injEq] at h
          split at h
          · simp only [Option.some.injEq] at h
            subst h
            rw [List.mem_map] at ht
            obtain ⟨ap, hap, hout⟩ := ht
            refine ⟨ap, ?_, hout.symm⟩
            simp only [rawArrayElemsOf]
            rw [if_pos htrim]
            exact hap
          · simp at h
    · simp only [Except.ok.injEq] at h
      simp [arrayYield] at h
  | jvalue v =>
    cases v with
    | notArray => simp [threadArrayBranch, arrayYield] at h
    | array la =>
      simp only [threadArrayBranch, arrayYield, Except.ok.injEq] at h
      split at h
      · simp only [Option.some.injEq] at h
        subst h
        rw [List.mem_map] at ht
        obtain ⟨ap, hap, hout⟩ := ht
        exact ⟨ap, hap, hout.symm⟩
      · simp at h

theorem threadOutputs_elem (p : NodeParams) (l : List ThreadPostOut) (t : ThreadPostOut)
    (h : threadOutputs p = .ok (some l)) (ht : t ∈ l) :
    (∃ mp ∈ p.postContentAdditionalPosts, t = manualOut mp) ∨
    (∃ ap ∈ rawArrayElems p, t = arrayOut ap) := by
  unfold threadOutputs at h
  split at h
  · split at h
    · split at h
      · simp only [Except.ok.injEq, Option.some.injEq] at h
        subst h
        rw [List.mem_map] at ht
        obtain ⟨mp, hmp, hout⟩ := ht
        exact Or.inl ⟨mp, hmp, hout.symm⟩
      · simp at h
    · split at h
      · exact Or.inr (threadArrayBranch_elem _ _ _ h ht)
      · simp at h
  · simp at h

-- ---------------------------------------------------------------------------
-- Claim theorems
-- ---------------------------------------------------------------------------

/-- Claim C1, counterexample: the claim says every (resource, operation) pair
outside the table (media, upload) / (post, create) makes execute throw a
NodeOperationError; but for resource 'post' with operation 'delete' execute
builds and issues a POST to /v2/posts, because the post branch never
consults the operation parameter. -/
theorem c1_counterexample : executeItem postDeleteParams = .ok blueskyBaseReq := by decide

/-- Claim C1, amended: resource 'media' with operation 'upload' builds a POST
to /v2/media; resource 'media' with any other operation throws a
NodeOperationError and issues no request; resource 'post' ignores the
operation parameter, and every request it succeeds in building is a POST
to /v2/posts; any other resource throws a NodeOperationError and issues no
request. -/
theorem c1_amended_dispatch :
    (∀ p : NodeParams, p.resource = "media" → p.operation = "upload" →
      executeItem p = .ok { method := "POST", path := "/v2/media",
                            body := .mediaBody (if p.useBinaryData then
                              dataUriOf p.binaryMimeType p.binaryBuffer else p.mediaUrl) }) ∧
    (∀ p : NodeParams, p.resource = "media" → p.operation ≠ "upload" →
      executeItem p = .nodeError (mediaOpUnsupportedMsg p.operation)) ∧
    (∀ (p : NodeParams) (r : BuiltRequest), p.resource = "post" →
      executeItem p = .ok r → r.method = "POST" ∧ r.path = "/v2/posts") ∧
    (∀ p : NodeParams, p.resource ≠ "media" → p.resource ≠ "post" →
      executeItem p = .nodeError (resourceUnsupportedMsg p.resource)) := by
  refine ⟨?_, ?_, ?_, ?_⟩
  · intro p hres hop
    unfold executeItem buildMediaRequest
    rw [hres, hop]
    cases hub : p.useBinaryData <;> simp
  · intro p hres hop
    unfold executeItem buildMediaRequest
    rw [hres]
    simp [hop]
  · intro p r hres hok
    rw [executeItem_post p hres] at hok
    obtain ⟨addl, tgt, _, _, hr⟩ := buildPostRequest_ok p r hok
    subst hr
    exact ⟨rfl, rfl⟩
  · intro p hres1 hres2
    unfold executeItem
    rw [if_neg hres1, if_neg hres2]

/-- Claim C1, witness instances of the amended theorem: a media item with
operation 'download' and an item with resource 'video' both throw. -/
theorem c1_amended_witness :
    executeItem mediaBadOpParams = .nodeError (mediaOpUnsupportedMsg "download") ∧
    executeItem badResourceParams = .nodeError (resourceUnsupportedMsg "video") := by
  constructor
  · exact c1_amended_dispatch.2.1 mediaBadOpParams rfl (by decide)
  · exact c1_amended_dispatch.2.2.2 badResourceParams (by decide) (by decide)

/-- Claim C5: for resource 'media', operation 'upload', the built request is a
POST to /v2/media whose JSON body is (url: u), where u is the mediaUrl
parameter when useBinaryData is false, and the data URI
data:mimeType;base64,(base64 of the buffer) when useBinaryData is true,
with the mimeType defaulting to application/octet-stream. -/
theorem c5_media_upload_body (p : NodeParams)
    (hres : p.resource = "media") (hop : p.operation = "upload") :
    executeItem p = .ok { method := "POST", path := "/v2/media",
                          body := .mediaBody (if p.useBinaryData then
                            "data:" ++ mimeOrDefault p.binaryMimeType ++ ";base64," ++
                              base64Encode p.binaryBuffer
                          else p.mediaUrl) } := by
  unfold executeItem buildMediaRequest
  rw [hres, hop]
  cases hub : p.useBinaryData <;> simp [dataUriOf]

/-- Claim C5, witness: uploading the bytes of 'Hi' as image/png binary data
posts the data URI data:image/png;base64,SGk= to /v2/media. -/
theorem c5_media_upload_witness :
    executeItem mediaBinParams = .ok { method := "POST", path := "/v2/media",
                                       body := .mediaBody "data:image/png;base64,SGk=" } := by
  rw [c5_media_upload_body mediaBinParams rfl rfl]
  decide

/-- Claim C9: in the revision of the node in src/unnamed/part_003, a binary
media upload whose buffer is strictly larger than 15 * 1024 * 1024 bytes
throws a NodeOperationError and issues no request; a buffer at or below the
limit is base64-encoded and sent as a data URI. -/
theorem c9_binary_size_cap (p : NodeParams)
    (hop : p.operation = "upload") (hbin : p.useBinaryData = true) :
    (p.binaryBuffer.length > BINARY_UPLOAD_MAX_SIZE_BYTES →
      buildMediaRequest_v3 p = .nodeError (binarySizeErrorMsg p.binaryBuffer.length)) ∧
    (p.binaryBuffer.length ≤ BINARY_UPLOAD_MAX_SIZE_BYTES →
      buildMediaRequest_v3 p = .ok { method := "POST", path := "/v2/media",
                                     body := .mediaBody (dataUriOf p.binaryMimeType p.binaryBuffer) }) := by
  unfold buildMediaRequest_v3
  rw [hop, hbin]
  constructor
  · intro hgt
    simp [if_pos hgt]
  · intro hle
    simp [if_neg (Nat.not_lt.mpr hle)]

/-- Claim C9, witness: a buffer of 15 * 1024 * 1024 + 1 zero bytes is rejected
with the size error, and the two-byte buffer of mediaBinParams is sent. -/
theorem c9_binary_size_witness :
    buildMediaRequest_v3 bigBinParams =
      .nodeError (binarySizeErrorMsg bigBinParams.binaryBuffer.length) ∧
    buildMediaRequest_v3 mediaBinParams = .ok { method := "POST", path := "/v2/media",
                                                body := .mediaBody "data:image/png;base64,SGk=" } := by
  constructor
  · refine (c9_binary_size_cap bigBinParams rfl rfl).1 ?_
    show (List.replicate (BINARY_UPLOAD_MAX_SIZE_BYTES + 1) 0).length >
      BINARY_UPLOAD_MAX_SIZE_BYTES
    rw [List.length_replicate]
    exact Nat.lt_succ_self _
  · have h := (c9_binary_size_cap mediaBinParams rfl rfl).2 (by decide)
    rw [h]
    decide

/-- Claim C7: every HTTP request issued by execute, getAccounts and
getSubaccounts has a URI equal to the blotatoApi credential's server string
followed by a path beginning /v2/; no URI escapes the server prefix. -/
theorem c7_server_prefix (server : String) (p : NodeParams) (r : BuiltRequest)
    (platform accountId : String) (h : executeItem p = .ok r) :
    (∃ rest, finalRequestUri server r = server ++ ("/v2/" ++ rest)) ∧
    (∃ rest, (getAccountsRequest server platform).uri = server ++ ("/v2/" ++ rest)) ∧
    (∃ rest, (getSubaccountsRequest server platform accountId).uri =
      server ++ ("/v2/" ++ rest)) := by
  refine ⟨?_, ?_, ?_⟩
  · rcases executeItem_ok_path p r h with ⟨_, hpath | hpath⟩
    · refine ⟨"media", ?_⟩
      unfold finalRequestUri
      rw [hpath]
      exact congrArg (fun x => server ++ x) (by decide)
    · refine ⟨"posts", ?_⟩
      unfold finalRequestUri
      rw [hpath]
      exact congrArg (fun x => server ++ x) (by decide)
  · exact ⟨"users/me/accounts", rfl⟩
  · refine ⟨"users/me/accounts/" ++ accountId ++ "/subaccounts", ?_⟩
    show server ++ ("/v2/users/me/accounts/" ++ accountId ++ "/subaccounts") =
      server ++ ("/v2/" ++ ("users/me/accounts/" ++ accountId ++ "/subaccounts"))
    refine congrArg (fun x => server ++ x) ?_
    rw [← String.append_assoc, ← String.append_assoc]
    rfl

/-- Claim C7, witness: at a concrete server, item and account, all three
request builders produce URIs of the form server ++ /v2/rest. -/
theorem c7_server_prefix_witness :
    (∃ rest, finalRequestUri "https://backend.blotato.com" blueskyBaseReq =
      "https://backend.blotato.com" ++ ("/v2/" ++ rest)) ∧
    (∃ rest, (getAccountsRequest "https://backend.blotato.com" "twitter").uri =
      "https://backend.blotato.com" ++ ("/v2/" ++ rest)) ∧
    (∃ rest, (getSubaccountsRequest "https://backend.blotato.com" "facebook" "77").uri =
      "https://backend.blotato.com" ++ ("/v2/" ++ rest)) :=
  c7_server_prefix "https://backend.blotato.com" baseParams blueskyBaseReq
    "twitter" "77" (by decide)

/-- Claim C8: getAccounts returns one dropdown result per element of the items
list, in order, with name = fullname when non-empty and username otherwise,
and value = id; getSubaccounts returns one result per element with
name = element.name and value = element.id. -/
theorem c8_search_results (server : String) (accounts : List AccountSearchItem)
    (subs : List SubaccountSearchItem) (k : Nat) :
    (getAccountsResults server accounts).length = accounts.length ∧
    (getSubaccountsResults server subs).length = subs.length ∧
    (∀ item, accounts[k]? = some item →
      ∃ res, (getAccountsResults server accounts)[k]? = some res ∧
        res.name = (if item.fullname = "" then item.username else item.fullname) ∧
        res.value = item.id) ∧
    (∀ item, subs[k]? = some item →
      ∃ res, (getSubaccountsResults server subs)[k]? = some res ∧
        res.name = item.name ∧ res.value = item.id) := by
  refine ⟨by simp [getAccountsResults], by simp [getSubaccountsResults], ?_, ?_⟩
  · intro item hitem
    have hmap : (getAccountsResults server accounts)[k]? = some
        { name := if item.fullname = "" then item.username else item.fullname,
          value := item.id,
          url := server ++ "/v2/accounts/" ++ item.id } := by
      unfold getAccountsResults
      rw [List.getElem?_map, hitem]
      rfl
    exact ⟨_, hmap, rfl, rfl⟩
  · intro item hitem
    have hmap : (getSubaccountsResults server subs)[k]? = some
        { name := item.name,
          value := item.id,
          url := server ++ "/v2/accounts/" ++ item.accountId ++ "/subaccounts/" ++ item.id } := by
      unfold getSubaccountsResults
      rw [List.getElem?_map, hitem]
      rfl
    exact ⟨_, hmap, rfl, rfl⟩

/-- Claim C8, witness: on the sample responses, the second account entry falls
back to the username 'bob' with value '2', and the subaccount entry keeps
name 'Page' and value '9'. -/
theorem c8_search_results_witness :
    (∃ res, (getAccountsResults "s" sampleAccounts)[1]? = some res ∧
      res.name = (if ("" : String) = "" then "bob" else "") ∧ res.value = "2") ∧
    (∃ res, (getSubaccountsResults "s" sampleSubs)[0]? = some res ∧
      res.name = "Page" ∧ res.value = "9") := by
  constructor
  · exact (c8_search_results "s" sampleAccounts sampleSubs 1).2.2.1 _ rfl
  · exact (c8_search_results "s" sampleAccounts sampleSubs 0).2.2.2 _ rfl

/-- Claim C4: for post:create, a truthy scheduledTime option s appears as the
root-level scheduledTime field of the body (not inside the post object),
kept verbatim when s contains 'Z', contains '+', or ends in a sign-hh:mm
offset, and with 'Z' appended otherwise; an absent or empty scheduledTime
yields no such field. -/
theorem c4_scheduled_time (p : NodeParams) (r : BuiltRequest) (pb : PostBody)
    (hres : p.resource = "post") (hop : p.operation = "create")
    (hok : executeItem p = .ok r) (hb : r.body = .postBody pb) :
    pb.scheduledTime =
      match p.options.scheduledTime with
      | none => none
      | some s =>
        if s = "" then none
        else if jsContainsChar s 'Z' || jsContainsChar s '+' || endsWithOffset s then some s
        else some (s ++ "Z") := by
  rw [executeItem_post p hres] at hok
  obtain ⟨addl, tgt, hth, hpt, hr⟩ := buildPostRequest_ok p r hok
  subst hr
  simp only [postReqOf] at hb
  injection hb with hb
  subst hb
  show scheduledTimeField p.options.scheduledTime = _
  cases ho : p.options.scheduledTime with
  | none => rfl
  | some s =>
    simp only [scheduledTimeField]
    by_cases hempty : s = ""
    · rw [if_pos hempty, if_pos hempty]
    · rw [if_neg hempty, if_neg hempty]
      by_cases htz : (jsContainsChar s 'Z' || jsContainsChar s '+' || endsWithOffset s) = true
      · rw [if_pos htz, if_pos htz]
      · rw [if_neg htz, if_neg htz]

/-- Claim C4, witness: the naive timestamp 2024-12-31T23:59:59 is scheduled as
2024-12-31T23:59:59Z at the root of the body. -/
theorem c4_scheduled_time_witness :
    scheduledBody.scheduledTime = some "2024-12-31T23:59:59Z" :=
  (c4_scheduled_time scheduledParams scheduledReq scheduledBody rfl rfl
    (by decide) rfl).trans (by decide)

/-- Claim C3: for post:create with platform instagram, tiktok, pinterest or
youtube, an empty parsed media URL list makes execute throw the
NodeOperationError '(Platform) requires you to post an image or video.' and
issue no request; for the other supported platforms an empty media URL
list never produces that error. -/
theorem c3_media_required (p : NodeParams) (hres : p.resource = "post") :
    (p.platform ∈ requiresMediaPlatforms → splitUrls p.postContentMediaUrls = [] →
      executeItem p = .nodeError (jsCapitalize p.platform ++
        " requires you to post an image or video.")) ∧
    (p.platform ∈ (["bluesky", "facebook", "linkedin", "threads", "twitter"] : List String) →
      executeItem p ≠ .nodeError (jsCapitalize p.platform ++
        " requires you to post an image or video.")) := by
  constructor
  · intro hmem hempty
    rw [executeItem_post p hres]
    unfold buildPostRequest
    rw [hempty]
    have hmem4 : p.platform = "instagram" ∨ p.platform = "tiktok" ∨
        p.platform = "pinterest" ∨ p.platform = "youtube" := by
      simpa [requiresMediaPlatforms] using hmem
    rcases hmem4 with h | h | h | h <;> rw [h] <;> rfl
  · intro hmem heq
    rw [executeItem_post p hres] at heq
    unfold buildPostRequest at heq
    have hmem5 : p.platform = "bluesky" ∨ p.platform = "facebook" ∨
        p.platform = "linkedin" ∨ p.platform = "threads" ∨ p.platform = "twitter" := by
      simpa using hmem
    have hro : requiresMediaPlatforms.contains p.platform = false := by
      rcases hmem5 with h | h | h | h | h <;> rw [h] <;> decide
    rw [hro] at heq
    simp only [Bool.false_and, Bool.false_eq_true, if_false] at heq
    cases hth : threadOutputs p with
    | error m =>
      rw [hth] at heq
      simp only [ExecResult.nodeError.injEq] at heq
      have hm := threadOutputs_error p m hth
      rw [hm] at heq
      rcases hmem5 with h | h | h | h | h <;> rw [h] at heq <;> exact absurd heq (by decide)
    | ok addl =>
      obtain ⟨tgt, hpt⟩ := platformTarget_ok_of_supported p hmem5
      rw [hth, hpt] at heq
      simp at heq

/-- Claim C3, witness: an instagram item whose media URL string ' , ' parses
to the empty list throws the media-required error, while a bluesky item
with no media never produces that error. -/
theorem c3_media_required_witness :
    executeItem instagramNoMediaParams =
      .nodeError "Instagram requires you to post an image or video." ∧
    executeItem baseParams ≠
      .nodeError (jsCapitalize baseParams.platform ++
        " requires you to post an image or video.") := by
  constructor
  · have h := (c3_media_required instagramNoMediaParams rfl).1 (by decide) (by decide)
    rw [h]
    decide
  · exact (c3_media_required baseParams rfl).2 (by decide)

/-- Claim C2, counterexample: the claim says the youtube target carries exactly
title, privacyStatus and shouldNotifySubscribers beside targetType; but
when the madeForKids option is present the built target also carries
isMadeForKids (here some false), a field the claim's list omits. -/
theorem c2_counterexample :
    executeItem youtubeKidsParams = .ok youtubeKidsReq ∧
    youtubeKidsTarget.isMadeForKids = some false := ⟨by decide, rfl⟩

/-- Claim C2, amended: for post:create on every supported platform p the body
has post.target.targetType = p and post.content.platform = p, and the
target carries exactly the platform-specific fields: facebook pageId (and
mediaType when set), tiktok its eight options, pinterest boardId (and
title, altText, link when set), youtube title, privacyStatus,
shouldNotifySubscribers and additionally isMadeForKids when the
madeForKids option is present, threads replyControl when set, linkedin
pageId when set, instagram mediaType when set, bluesky and twitter nothing
beyond targetType. -/
theorem c2_amended_platform_fields (p : NodeParams) (r : BuiltRequest) (pb : PostBody)
    (hres : p.resource = "post") (hop : p.operation = "create")
    (hok : executeItem p = .ok r) (hb : r.body = .postBody pb) :
    pb.post.target.targetType = p.platform ∧
    pb.post.content.platform = p.platform ∧
    (p.platform = "facebook" → pb.post.target =
      { targetType := "facebook", pageId := some p.facebookPageId,
        mediaType := jsTruthyOpt p.options.facebookMediaType }) ∧
    (p.platform = "tiktok" → pb.post.target =
      { targetType := "tiktok",
        privacyLevel := some p.postCreateTiktokOptionPrivacyLevel,
        disabledComments := some p.postCreateTiktokOptionDisabledComments,
        disabledDuet := some p.postCreateTiktokOptionDisabledDuet,
        disabledStitch := some p.postCreateTiktokOptionDisabledStitch,
        isBrandedContent := some p.postCreateTiktokOptionIsBrandedContent,
        isYourBrand := some p.postCreateTiktokOptionIsYourBrand,
        isAiGenerated := some p.postCreateTiktokOptionIsAiGenerated,
        autoAddMusic := some p.postCreateTiktokOptionAutoAddMusic }) ∧
    (p.platform = "pinterest" → pb.post.target =
      { targetType := "pinterest", boardId := some p.pinterestBoardId,
        title := jsTruthyStr p.postCreatePinterestOptionTitle,
        altText := jsTruthyOpt p.options.pinterestAltText,
        link := jsTruthyOpt p.options.pinterestLink }) ∧
    (p.platform = "youtube" → pb.post.target =
      { targetType := "youtube", title := some p.postCreateYoutubeOptionTitle,
        privacyStatus := some p.postCreateYoutubeOptionPrivacyStatus,
        shouldNotifySubscribers := some p.postCreateYoutubeOptionShouldNotifySubscribers,
        isMadeForKids := p.options.youtubeMadeForKids }) ∧
    (p.platform = "threads" → pb.post.target =
      { targetType := "threads", replyControl := jsTruthyOpt p.options.threadsReplyControl }) ∧
    (p.platform = "linkedin" → pb.post.target =
      { targetType := "linkedin", pageId := linkedinPageValue p.options.linkedinPageId }) ∧
    (p.platform = "instagram" → pb.post.target =
      { targetType := "instagram", mediaType := jsTruthyOpt p.options.instagramMediaType }) ∧
    (p.platform = "bluesky" → pb.post.target = { targetType := "bluesky" }) ∧
    (p.platform = "twitter" → pb.post.target = { targetType := "twitter" }) := by
  rw [executeItem_post p hres] at hok
  obtain ⟨addl, tgt, hth, hpt, hr⟩ := buildPostRequest_ok p r hok
  subst hr
  simp only [postReqOf] at hb
  injection hb with hb
  subst hb
  refine ⟨platformTarget_targetType p tgt hpt, rfl, ?_, ?_, ?_, ?_, ?_, ?_, ?_, ?_, ?_⟩
  all_goals
    intro hplat
  all_goals
    unfold platformTarget at hpt
  all_goals
    rw [hplat] at hpt
  all_goals
    injection hpt with h2
  all_goals
    exact h2.symm

/-- Claim C2, witness instance of the amended theorem: the facebook item with
page id 123 and a mediaType option builds exactly the facebook target. -/
theorem c2_amended_witness :
    facebookBody.post.target =
      { targetType := "facebook", pageId := some facebookParams.facebookPageId,
        mediaType := jsTruthyOpt facebookParams.options.facebookMediaType } :=
  (c2_amended_platform_fields facebookParams facebookReq facebookBody rfl rfl
    (by decide) rfl).2.2.1 rfl

/-- Claim C6: for post:create the body carries post.content.additionalPosts
only when the platform is thread-supported (twitter, threads, bluesky) and
the chosen thread input yields at least one post; for platforms outside
that set the body never carries additionalPosts, and changing the three
thread parameters does not change the result at all. -/
theorem c6_additional_posts_frame (p : NodeParams) (r : BuiltRequest) (pb : PostBody)
    (hres : p.resource = "post") (hop : p.operation = "create")
    (hok : executeItem p = .ok r) (hb : r.body = .postBody pb) :
    (∀ l, pb.post.content.additionalPosts = some l →
      p.platform ∈ THREAD_SUPPORTED_PLATFORMS ∧ l ≠ []) ∧
    (p.platform ∉ THREAD_SUPPORTED_PLATFORMS → pb.post.content.additionalPosts = none) ∧
    (∀ (m : String) (posts : List ManualThreadPost) (arr : ThreadPostsArrayParam),
      p.platform ∉ THREAD_SUPPORTED_PLATFORMS →
      executeItem { p with threadInputMethod := m, postContentAdditionalPosts := posts,
                           threadPostsArray := arr } = executeItem p) := by
  rw [executeItem_post p hres] at hok
  obtain ⟨addl, tgt, hth, hpt, hr⟩ := buildPostRequest_ok p r hok
  subst hr
  simp only [postReqOf] at hb
  injection hb with hb
  subst hb
  refine ⟨?_, ?_, ?_⟩
  · intro l hl
    have hl2 : addl = some l := hl
    rw [hl2] at hth
    obtain ⟨hc, hne⟩ := threadOutputs_some p l hth
    exact ⟨List.mem_of_elem_eq_true hc, hne⟩
  · intro hnot
    have hcf : THREAD_SUPPORTED_PLATFORMS.contains p.platform = false :=
      contains_eq_false_of_not_mem hnot
    have h0 := threadOutputs_not_supported p hcf
    have h1 : addl = (none : Option (List ThreadPostOut)) := by
      have h2 := hth.symm.trans h0
      injection h2
    exact h1
  · intro m posts arr hnot
    have hcf : THREAD_SUPPORTED_PLATFORMS.contains p.platform = false :=
      contains_eq_false_of_not_mem hnot
    have hres2 : ({ p with threadInputMethod := m,
                            postContentAdditionalPosts := posts,
                            threadPostsArray := arr } : NodeParams).resource = "post" := hres
    rw [executeItem_post _ hres2, executeItem_post p hres]
    unfold buildPostRequest
    have hcf2 : THREAD_SUPPORTED_PLATFORMS.contains
        ({ p with threadInputMethod := m,
                  postContentAdditionalPosts := posts,
                  threadPostsArray := arr } : NodeParams).platform = false := hcf
    rw [threadOutputs_not_supported _ hcf2, threadOutputs_not_supported p hcf]
    rfl

/-- Claim C6, witness instances: the manual thread entry of a twitter item
yields additionalPosts (platform in the set, list non-empty), and for the
facebook item the body carries no additionalPosts. -/
theorem c6_additional_posts_witness :
    (twitterManualParams.platform ∈ THREAD_SUPPORTED_PLATFORMS ∧
      ([twitterManualOut] : List ThreadPostOut) ≠ []) ∧
    facebookBody.post.content.additionalPosts = none := by
  constructor
  · exact (c6_additional_posts_frame twitterManualParams twitterManualReq
      twitterManualBody rfl rfl (by decide) rfl).1 [twitterManualOut] rfl
  · exact (c6_additional_posts_frame facebookParams facebookReq
      facebookBody rfl rfl (by decide) rfl).2.1 (by decide)

/-- Claim C10, counterexample: the claim says every element of each additional
thread post's mediaUrls in the built body is a trimmed non-empty string;
but a mediaUrls value supplied as a JSON array in the array thread input is
passed through verbatim, so the built body here carries the empty string
and the padded string '  x ' as media URLs. -/
theorem c10_counterexample :
    executeItem twitterRawArrayParams = .ok twitterRawArrayReq ∧
    twitterRawArrayOut.mediaUrls = ["", "  x "] := ⟨by decide, rfl⟩

/-- Claim C10, amended: every element of post.content.mediaUrls is a trimmed
non-empty string, and so is every element of each additional thread post's
mediaUrls except those passed through verbatim from an array-valued
mediaUrls property of the array thread input. -/
theorem c10_amended_trimmed_urls (p : NodeParams) (r : BuiltRequest) (pb : PostBody)
    (hres : p.resource = "post") (hop : p.operation = "create")
    (hok : executeItem p = .ok r) (hb : r.body = .postBody pb) :
    (∀ u ∈ pb.post.content.mediaUrls, isJsTrimmed u = true ∧ u ≠ "") ∧
    (∀ l, pb.post.content.additionalPosts = some l → ∀ t ∈ l,
      (∀ u ∈ t.mediaUrls, isJsTrimmed u = true ∧ u ≠ "") ∨
      (∃ ap ∈ rawArrayElems p, ap.mediaUrls = .ofArray t.mediaUrls)) := by
  rw [executeItem_post p hres] at hok
  obtain ⟨addl, tgt, hth, hpt, hr⟩ := buildPostRequest_ok p r hok
  subst hr
  simp only [postReqOf] at hb
  injection hb with hb
  subst hb
  constructor
  · intro u hu
    exact splitUrls_trimmed p.postContentMediaUrls u hu
  · intro l hl t ht
    have hl2 : addl = some l := hl
    rw [hl2] at hth
    rcases threadOutputs_elem p l t hth ht with ⟨mp, _, hout⟩ | ⟨ap, hap, hout⟩
    · subst hout
      left
      intro u hu
      simp only [manualOut] at hu
      split at hu
      · simp at hu
      · exact splitUrls_trimmed mp.mediaUrls u hu
    · subst hout
      cases hmv : ap.mediaUrls with
      | absent =>
        left
        intro u hu
        simp [arrayOut, jsMediaOut, hmv] at hu
      | otherTruthy =>
        left
        intro u hu
        simp [arrayOut, jsMediaOut, hmv] at hu
      | ofString s =>
        left
        intro u hu
        simp only [arrayOut, jsMediaOut, hmv] at hu
        split at hu
        · simp at hu
        · exact splitUrls_trimmed s u hu
      | ofArray la =>
        right
        refine ⟨ap, hap, ?_⟩
        simp [arrayOut, jsMediaOut, hmv]

/-- Claim C10, witness instance of the amended theorem: the manual thread
entry of the twitter item has trimmed non-empty media URLs (or would be a
verbatim array, which it is not). -/
theorem c10_amended_witness :
    (∀ u ∈ twitterManualOut.mediaUrls, isJsTrimmed u = true ∧ u ≠ "") ∨
    (∃ ap ∈ rawArrayElems twitterManualParams,
      ap.mediaUrls = .ofArray twitterManualOut.mediaUrls) :=
  (c10_amended_trimmed_urls twitterManualParams twitterManualReq twitterManualBody
    rfl rfl (by decide) rfl).2 [twitterManualOut] rfl twitterManualOut (by simp)
